import Mathlib

/-!
Verification of the two Cppuccino example programs against their specification.

The development is a shallow embedding of the two C++ source files:

* `examples/const_vs_nonconst.cpp` — a `Data` class with a `const` method
  `compute` and a non-`const` method `computeNonConst`, both summing the
  integers `0..999999` into a 32-bit `int` accumulator, and a `main` that
  times 100 invocations of each and prints two duration lines.
* `examples/ownership_and_lifetime.cpp` — a traced `Resource` class whose
  constructor, destructor and `use` method print acquire/release/use lines,
  exercised by three scenarios (unique ownership, shared ownership,
  non-owning observer) from a linear `main`.

Machine integers are modelled as `Int` with explicit reduction modulo `2^32`
(two's-complement wraparound; signed overflow is undefined behaviour in the
source, wraparound is the conventional concrete semantics).  Console output is
modelled as a list of structured events; run-dependent data (printed pointer
addresses, clock readings) are parameters of the embedding.
-/

namespace Cppuccino

/-! ### Benchmark program: `const_vs_nonconst.cpp` -/

/-- Two's-complement wraparound of a 32-bit signed `int`: the unique value in
`[-2^31, 2^31)` congruent to `x` modulo `2^32`. -/
def wrap32 (x : Int) : Int := (x + 2147483648) % 4294967296 - 2147483648

/-- The loop body of `Data::compute`:
`int sum = 0; for (int i = 0; i < 1000000; ++i) sum += i; return sum;`
modelled as tail recursion on the loop counter with 32-bit wraparound on the
accumulator at every addition. -/
def computeFromC (i : Nat) (sum : Int) : Int :=
  if i < 1000000 then computeFromC (i + 1) (wrap32 (sum + (i : Int))) else sum
termination_by 1000000 - i

/-- The loop body of `Data::computeNonConst`, textually identical to the loop
of `Data::compute` in the source. -/
def computeFromNC (i : Nat) (sum : Int) : Int :=
  if i < 1000000 then computeFromNC (i + 1) (wrap32 (sum + (i : Int))) else sum
termination_by 1000000 - i

/-- `class Data` has no data members; neither method reads or writes state. -/
structure Data

/-- `int Data::compute() const` — runs the summation loop from `i = 0`,
`sum = 0`. -/
def Data.compute (_ : Data) : Int := computeFromC 0 0

/-- `int Data::computeNonConst()` — the non-`const` twin; same loop, same
start state.  The method mutates nothing, so the receiver is unchanged. -/
def Data.computeNonConst (_ : Data) : Int := computeFromNC 0 0

/-- The exact (unbounded) value accumulated by the loop from counter `i`:
`i + (i+1) + ... + 999999`. -/
def sumFrom (i : Nat) : Nat :=
  if i < 1000000 then i + sumFrom (i + 1) else 0
termination_by 1000000 - i

/-- The batch `for (int i = 0; i < 100; ++i) data.compute();` — one hundred
invocations whose results the source discards. -/
def constBatch (d : Data) : List Int :=
  (List.range 100).map fun _ => Data.compute d

/-- The batch `for (int i = 0; i < 100; ++i) data.computeNonConst();`. -/
def nonConstBatch (d : Data) : List Int :=
  (List.range 100).map fun _ => Data.computeNonConst d

/-- One line of the benchmark program's output: which variant was timed and
the printed duration (clock-tick difference; the printed value is a function
of the two clock readings only). -/
inductive BenchLine where
  | constLine (dur : Int)
  | nonConstLine (dur : Int)
deriving DecidableEq, Repr

/-- `main` of `const_vs_nonconst.cpp`.  The four
`high_resolution_clock::now()` readings are parameters `t1 t2 t3 t4` (they
vary between runs); the program runs the two batches and prints one duration
line per batch, in this order. -/
def benchMain (t1 t2 t3 t4 : Int) : List BenchLine :=
  let d : Data := {}
  let _resultsConst := constBatch d
  let _resultsNonConst := nonConstBatch d
  [BenchLine.constLine (t2 - t1), BenchLine.nonConstLine (t4 - t3)]

/-- A benchmark output line with the run-dependent duration erased. -/
def BenchLine.shape : BenchLine → BenchLine
  | BenchLine.constLine _ => BenchLine.constLine 0
  | BenchLine.nonConstLine _ => BenchLine.nonConstLine 0

/-! ### Lifetime demo program: `ownership_and_lifetime.cpp` -/

/-- One printed line of the lifetime demo.  Identity markers (the `this` /
pointer values the source prints with `<< res`) are modelled as `Nat`
parameters. -/
inductive Event where
  | header (s : String)
  | acquire (name : String) (addr : Nat)
  | release (name : String) (addr : Nat)
  | use (name : String) (addr : Nat)
  | callerOwns (addr : Nat)
  | consumeOwns (addr : Nat)
  | callerEmpty
  | countLine (owner : String) (addr : Nat) (count : Nat)
  | countAfter (count : Nat)
  | ownerLine (addr : Nat)
  | observerSees (addr : Nat)
deriving DecidableEq, Repr

/-- A live `Resource` object: its `name_` string and its address (the
identity marker the traces print). -/
structure Resource where
  name : String
  addr : Nat
deriving DecidableEq, Repr

/-- The trace printed by `Resource::Resource`:
`[Acquire] Resource: <name> @ <this>`. -/
def Resource.ctorTrace (r : Resource) : Event := Event.acquire r.name r.addr

/-- The trace printed by `Resource::~Resource`:
`[Release] Resource: <name> @ <this>`. -/
def Resource.dtorTrace (r : Resource) : Event := Event.release r.name r.addr

/-- The trace printed by `Resource::use`:
`[Use] Resource: <name> @ <this>`. -/
def Resource.useTrace (r : Resource) : Event := Event.use r.name r.addr

/-- A `unique_ptr<Resource>` (or raw `Resource*`) is either null or holds a
resource; the null pointer prints as address `0`. -/
def ptrAddr (p : Option Resource) : Nat :=
  match p with
  | some r => r.addr
  | none => 0

/-- `std::move` out of a `unique_ptr` into a callee's parameter: the callee
receives the held pointer and the moved-from owner is left null.  Returns
(moved-from owner, value received by the callee). -/
def UniquePtr.move (p : Option Resource) : Option Resource × Option Resource :=
  (none, p)

/-- `std::unique_ptr<Resource> createUniqueResource()` — `make_unique`
constructs a `Resource("unique_resource")` (emitting its acquire trace) and
returns exclusive ownership of it. -/
def createUniqueResource (addr : Nat) : Option Resource × List Event :=
  let r : Resource := ⟨"unique_resource", addr⟩
  (some r, [Resource.ctorTrace r])

/-- `void consumeUnique(std::unique_ptr<Resource> res)` — prints the owned
pointer, calls `res->use()`, and at scope exit the parameter's destructor
destroys the owned resource (emitting its release trace).  Dereferencing a
null `res` would be undefined behaviour in the source (the program never
passes null); the model emits no use trace in that case, and a null owner
releases nothing. -/
def consumeUnique (res : Option Resource) : List Event :=
  [Event.consumeOwns (ptrAddr res)] ++
    (match res with
     | some r => [Resource.useTrace r]
     | none => []) ++
    (match res with
     | some r => [Resource.dtorTrace r]
     | none => [])

/-- `void uniqueOwnershipScenario()` — create the unique resource, print the
caller's view of the pointer, move it into `consumeUnique`, then print
`[Caller] unique_ptr is now empty` if (as the move guarantees) the moved-from
pointer is null.  At scope exit the moved-from pointer holds nothing, so its
destructor releases nothing. -/
def uniqueOwnershipScenario (addr : Nat) : List Event :=
  let (res, evCreate) := createUniqueResource addr
  let evCaller := [Event.callerOwns (ptrAddr res)]
  let (resAfter, moved) := UniquePtr.move res
  let evConsume := consumeUnique moved
  let evEmpty := if resAfter.isNone then [Event.callerEmpty] else []
  let evScopeExit :=
    match resAfter with
    | some r => [Resource.dtorTrace r]
    | none => []
  evCreate ++ evCaller ++ evConsume ++ evEmpty ++ evScopeExit

/-- Destruction of one `shared_ptr` owner: the shared count is decremented
and the resource's destructor (release trace) runs exactly when the count
reaches zero.  Returns the new count and the emitted traces. -/
def sharedRelease (r : Resource) (count : Nat) : Nat × List Event :=
  (count - 1, if count - 1 = 0 then [Resource.dtorTrace r] else [])

/-- `void sharedOwnershipScenario()` — `make_shared` constructs the resource
with use count 1; owner A prints the pointer and count; in a nested scope a
copy `another = res` raises the count to 2, prints, and calls `use`; leaving
the nested scope destroys the copy (count back to 1, no release); owner A
prints the count again and calls `use`; at scenario scope exit the last owner
is destroyed, the count reaches 0 and the resource is released. -/
def sharedOwnershipScenario (addr : Nat) : List Event :=
  let r : Resource := ⟨"shared_resource", addr⟩
  let evMake := [Resource.ctorTrace r]
  let cntA := 1
  let evOwnerA := [Event.countLine "Owner A" r.addr cntA]
  let cntB := cntA + 1
  let evInner := [Event.countLine "Owner B" r.addr cntB, Resource.useTrace r]
  let (cntAfterInner, evInnerExit) := sharedRelease r cntB
  let evAfter := [Event.countAfter cntAfterInner, Resource.useTrace r]
  let (_, evScopeExit) := sharedRelease r cntAfterInner
  evMake ++ evOwnerA ++ evInner ++ evInnerExit ++ evAfter ++ evScopeExit

/-- `void observeResource(const Resource* res)` — unconditionally prints
`[Observer] sees resource @ <res>` (a null pointer prints as 0), then calls
`res->use()` only under the `if (res)` null check. -/
def observeResource (res : Option Resource) : List Event :=
  [Event.observerSees (ptrAddr res)] ++
    (match res with
     | some r => [Resource.useTrace r]
     | none => [])

/-- `void observerScenario()` — `make_unique` constructs the resource, the
owner prints its pointer, `observeResource(owner.get())` gets a non-owning
raw pointer, and at scope exit the owner's destructor releases the
resource. -/
def observerScenario (addr : Nat) : List Event :=
  let owner : Resource := ⟨"observer_resource", addr⟩
  [Resource.ctorTrace owner, Event.ownerLine owner.addr] ++
    observeResource (some owner) ++
    [Resource.dtorTrace owner]

/-- `main` of `ownership_and_lifetime.cpp`: the three scenarios in order,
each under its section header, then the end-of-program line.  `a1 a2 a3` are
the (run-dependent) addresses of the three resources. -/
def mainTrace (a1 a2 a3 : Nat) : List Event :=
  [Event.header "=== Unique Ownership ==="] ++ uniqueOwnershipScenario a1 ++
    [Event.header "=== Shared Ownership ==="] ++ sharedOwnershipScenario a2 ++
    [Event.header "=== Observer Ownership ==="] ++ observerScenario a3 ++
    [Event.header "=== End of Program ==="]

/-- Lifecycle/use trace events (acquire, use, release) and owner-count
reports — the events the spec's end-to-end ordering property talks about
(headers and the other commentary lines are not lifecycle traces). -/
def isTraceEvent : Event → Bool
  | Event.acquire _ _ => true
  | Event.release _ _ => true
  | Event.use _ _ => true
  | Event.countLine _ _ _ => true
  | Event.countAfter _ => true
  | _ => false

/-- Is the event an acquisition trace? -/
def isAcquire : Event → Bool
  | Event.acquire _ _ => true
  | _ => false

/-- Is the event a release trace? -/
def isRelease : Event → Bool
  | Event.release _ _ => true
  | _ => false

/-- Is the event a use trace? -/
def isUse : Event → Bool
  | Event.use _ _ => true
  | _ => false

/-- The owner counts reported by the shared-ownership scenario, in print
order. -/
def countReports (l : List Event) : List Nat :=
  l.filterMap fun e =>
    match e with
    | Event.countLine _ _ c => some c
    | Event.countAfter c => some c
    | _ => none

/-- The lifecycle/use traces of the resource named `n`, in order. -/
def lifecycleOf (n : String) (l : List Event) : List Event :=
  l.filter fun e =>
    match e with
    | Event.acquire m _ => m == n
    | Event.use m _ => m == n
    | Event.release m _ => m == n
    | _ => false

/-- The identity markers printed by the owner line of the observer
scenario. -/
def ownerMarkers (l : List Event) : List Nat :=
  l.filterMap fun e =>
    match e with
    | Event.ownerLine m => some m
    | _ => none

/-- The identity markers printed by the observer. -/
def observerMarkers (l : List Event) : List Nat :=
  l.filterMap fun e =>
    match e with
    | Event.observerSees m => some m
    | _ => none

/-- The events strictly after the first occurrence of `ev` in `l`. -/
def afterEvent (ev : Event) (l : List Event) : List Event :=
  (l.dropWhile fun e => !(e == ev)).drop 1

/-- An event with its run-dependent identity marker erased (addresses are the
only per-run data in the lifetime demo's output besides nothing else). -/
def Event.shape : Event → Event
  | Event.header s => Event.header s
  | Event.acquire n _ => Event.acquire n 0
  | Event.release n _ => Event.release n 0
  | Event.use n _ => Event.use n 0
  | Event.callerOwns _ => Event.callerOwns 0
  | Event.consumeOwns _ => Event.consumeOwns 0
  | Event.callerEmpty => Event.callerEmpty
  | Event.countLine o _ c => Event.countLine o 0 c
  | Event.countAfter c => Event.countAfter c
  | Event.ownerLine _ => Event.ownerLine 0
  | Event.observerSees _ => Event.observerSees 0

/-! ### Helper lemmas: the summation loop -/

/-- Wraparound absorbs an already-wrapped left operand. -/
theorem wrap32_wrap32_add (a b : Int) : wrap32 (wrap32 a + b) = wrap32 (a + b) := by
  unfold wrap32
  omega

/-- Closed form of `sumFrom` below the loop bound, in product-free shape. -/
theorem sumFrom_value : ∀ (n i : Nat), 1000000 - i ≤ n → i ≤ 1000000 →
    2 * sumFrom i + i * i = 999999000000 + i := by
  intro n
  induction n with
  | zero =>
    intro i h hle
    have hie : i = 1000000 := by omega
    subst hie
    rw [sumFrom]
    simp
  | succ n ih =>
    intro i h hle
    by_cases hi : i < 1000000
    · have hih := ih (i + 1) (by omega) (by omega)
      have hsq : (i + 1) * (i + 1) = i * i + 2 * i + 1 := by ring
      rw [hsq] at hih
      rw [sumFrom]
      simp only [if_pos hi]
      set q := i * i with hq
      clear hq
      omega
    · have hie : i = 1000000 := by omega
      subst hie
      rw [sumFrom]
      simp

/-- The mathematical value of the whole summation: the Gauss sum. -/
theorem sumFrom_zero : sumFrom 0 = 499999500000 := by
  have h := sumFrom_value 1000000 0 (by omega) (by omega)
  omega

/-- The 32-bit loop computes the 32-bit wraparound of the exact sum. -/
theorem computeFromC_spec : ∀ (n i : Nat), 1000000 - i ≤ n → ∀ t : Int,
    computeFromC i (wrap32 t) = wrap32 (t + (sumFrom i : Int)) := by
  intro n
  induction n with
  | zero =>
    intro i h t
    have hi : ¬ i < 1000000 := by omega
    rw [computeFromC, sumFrom]
    simp [hi]
  | succ n ih =>
    intro i h t
    by_cases hi : i < 1000000
    · rw [computeFromC, sumFrom]
      simp only [if_pos hi]
      rw [wrap32_wrap32_add]
      rw [ih (i + 1) (by omega) (t + (i : Int))]
      congr 1
      push_cast
      ring
    · rw [computeFromC, sumFrom]
      simp [hi]

/-- The concrete value returned by the `const` method's loop. -/
theorem computeFromC_val : computeFromC 0 0 = 1783293664 := by
  have h0 : wrap32 0 = (0 : Int) := by unfold wrap32; omega
  have h := computeFromC_spec 1000000 0 (by omega) 0
  rw [h0, sumFrom_zero] at h
  rw [h]
  unfold wrap32
  omega

/-- The two loops are the same function. -/
theorem computeFrom_eq : ∀ (n i : Nat), 1000000 - i ≤ n → ∀ s : Int,
    computeFromC i s = computeFromNC i s := by
  intro n
  induction n with
  | zero =>
    intro i h s
    have hi : ¬ i < 1000000 := by omega
    rw [computeFromC, computeFromNC]
    simp [hi]
  | succ n ih =>
    intro i h s
    by_cases hi : i < 1000000
    · rw [computeFromC, computeFromNC]
      simp only [if_pos hi]
      exact ih (i + 1) (by omega) _
    · rw [computeFromC, computeFromNC]
      simp [hi]

/-- The concrete value returned by the non-`const` method's loop. -/
theorem computeFromNC_val : computeFromNC 0 0 = 1783293664 := by
  rw [← computeFrom_eq 1000000 0 (by omega) 0]
  exact computeFromC_val

/-! ### The claims -/

/-- C1 (counterexample): the claim places the shared resource's release trace
"at program end", but in `main` the shared resource is released when
`sharedOwnershipScenario` returns: strictly after its release trace come the
whole observer scenario (its acquisition among other events) and only then
the end-of-program line.  Shown at concrete addresses 1, 2, 3. -/
theorem C1_release_shared_not_at_program_end_cex :
    Event.acquire "observer_resource" 3 ∈
      afterEvent (Event.release "shared_resource" 2) (mainTrace 1 2 3) ∧
    Event.header "=== End of Program ===" ∈
      afterEvent (Event.release "shared_resource" 2) (mainTrace 1 2 3) := by
  decide

/-- C1 (amended): running the Lifetime Demo Program produces the thirteen
lifecycle/use traces in exactly the claimed order — acquire(unique),
use(consumeUnique), release(unique), acquire(shared), count 1, count 2, use,
count 1, use, release(shared), acquire(observer), use(observer),
release(observer) — with each release emitted at the end of its own
scenario's scope (not at program end): the full output, for any addresses,
is the explicit event list below, whose shared release is immediately
followed by the observer section and whose observer release is immediately
followed by the end-of-program line. -/
theorem C1_trace_order_amended : ∀ a1 a2 a3 : Nat,
    (mainTrace a1 a2 a3).filter isTraceEvent =
      [Event.acquire "unique_resource" a1, Event.use "unique_resource" a1,
       Event.release "unique_resource" a1,
       Event.acquire "shared_resource" a2, Event.countLine "Owner A" a2 1,
       Event.countLine "Owner B" a2 2, Event.use "shared_resource" a2,
       Event.countAfter 1, Event.use "shared_resource" a2,
       Event.release "shared_resource" a2,
       Event.acquire "observer_resource" a3, Event.use "observer_resource" a3,
       Event.release "observer_resource" a3] ∧
    mainTrace a1 a2 a3 =
      [Event.header "=== Unique Ownership ===",
       Event.acquire "unique_resource" a1, Event.callerOwns a1,
       Event.consumeOwns a1, Event.use "unique_resource" a1,
       Event.release "unique_resource" a1, Event.callerEmpty,
       Event.header "=== Shared Ownership ===",
       Event.acquire "shared_resource" a2, Event.countLine "Owner A" a2 1,
       Event.countLine "Owner B" a2 2, Event.use "shared_resource" a2,
       Event.countAfter 1, Event.use "shared_resource" a2,
       Event.release "shared_resource" a2,
       Event.header "=== Observer Ownership ===",
       Event.acquire "observer_resource" a3, Event.ownerLine a3,
       Event.observerSees a3, Event.use "observer_resource" a3,
       Event.release "observer_resource" a3,
       Event.header "=== End of Program ==="] := by
  intro a1 a2 a3
  exact ⟨rfl, rfl⟩

/-- C2 (counterexample): `Data::compute` does not return 499999500000 — that
value does not fit the 32-bit `int` accumulator. -/
theorem C2_compute_not_gauss_sum_cex :
    Data.compute Data.mk ≠ 499999500000 := by
  rw [show Data.compute Data.mk = 1783293664 from computeFromC_val]
  decide

/-- C2 (amended): every invocation of `compute()` and of `computeNonConst()`
returns the sum 0+1+...+999999 reduced to the 32-bit accumulator, i.e. the
two's-complement wraparound of 499999500000, which is 1783293664 (the exact
sum 499999500000 exceeds the 32-bit range); every one of the 100 invocations
in each timed batch returns that same value. -/
theorem C2_compute_wrapped_sum : ∀ d : Data,
    Data.compute d = 1783293664 ∧
    Data.computeNonConst d = 1783293664 ∧
    wrap32 499999500000 = 1783293664 ∧
    (499999500000 : Int) % 4294967296 = 1783293664 ∧
    constBatch d = List.replicate 100 1783293664 ∧
    nonConstBatch d = List.replicate 100 1783293664 := by
  intro d
  have hc : Data.compute d = 1783293664 := computeFromC_val
  have hnc : Data.computeNonConst d = 1783293664 := computeFromNC_val
  refine ⟨hc, hnc, by unfold wrap32; omega, by omega, ?_, ?_⟩
  · rw [constBatch]
    simp [hc, List.map_const']
  · rw [nonConstBatch]
    simp [hnc, List.map_const']

/-- C3: the read-only and mutable-qualified operations are the same
computation — their loops agree at every loop counter and accumulator value,
and the methods return equal values on every receiver. -/
theorem C3_const_nonconst_equivalent :
    (∀ (i : Nat) (s : Int), computeFromC i s = computeFromNC i s) ∧
    (∀ d : Data, Data.compute d = Data.computeNonConst d) := by
  constructor
  · intro i s
    exact computeFrom_eq (1000000 - i) i (by omega) s
  · intro d
    exact computeFrom_eq 1000000 0 (by omega) 0

/-- C4: the exclusive-ownership scenario emits exactly one acquisition trace
and exactly one release trace; the use trace is immediately followed by the
release trace (so the release is strictly after the use), and the release is
the last event of `consumeUnique` — it fires when the consuming operation's
scope ends. -/
theorem C4_unique_scenario_traces : ∀ a : Nat,
    (uniqueOwnershipScenario a).countP isAcquire = 1 ∧
    (uniqueOwnershipScenario a).countP isRelease = 1 ∧
    List.IsInfix [Event.use "unique_resource" a, Event.release "unique_resource" a]
      (uniqueOwnershipScenario a) ∧
    (consumeUnique (some ⟨"unique_resource", a⟩)).getLast? =
      some (Event.release "unique_resource" a) := by
  intro a
  exact ⟨rfl, rfl,
    ⟨[Event.acquire "unique_resource" a, Event.callerOwns a, Event.consumeOwns a],
     [Event.callerEmpty], rfl⟩, rfl⟩

/-- C5: after the ownership transfer the moved-from owner is null (holds no
reference), and the scenario's final printed line — after `consumeUnique`
returns — is the `[Caller] unique_ptr is now empty` report, printed exactly
once. -/
theorem C5_moved_from_owner_empty : ∀ (p : Option Resource) (a : Nat),
    (UniquePtr.move p).fst = none ∧
    (uniqueOwnershipScenario a).count Event.callerEmpty = 1 ∧
    (uniqueOwnershipScenario a).getLast? = some Event.callerEmpty := by
  intro p a
  exact ⟨rfl, rfl, rfl⟩

/-- C6: in the shared-ownership scenario the reported owner counts are
exactly 1, 2, 1 in that order; the inner-scope owner's destruction (count
2 → 1) emits no release trace since the count stays above 0; the scenario
contains exactly one release trace and it is the very last event, fired by
the last owner's destruction; and both owners successfully invoke `use`
(two use traces). -/
theorem C6_shared_count_transitions : ∀ a : Nat,
    countReports (sharedOwnershipScenario a) = [1, 2, 1] ∧
    (sharedRelease ⟨"shared_resource", a⟩ 2).snd = [] ∧
    (sharedRelease ⟨"shared_resource", a⟩ 2).fst = 1 ∧
    (sharedOwnershipScenario a).countP isRelease = 1 ∧
    (sharedOwnershipScenario a).getLast? =
      some (Event.release "shared_resource" a) ∧
    (sharedOwnershipScenario a).countP isUse = 2 := by
  intro a
  exact ⟨rfl, rfl, rfl, rfl, rfl, rfl⟩

/-- C7: per resource instance, the lifecycle traces carrying its name are,
in every scenario, exactly one acquisition first, then its use traces, then
exactly one release last — so every use happens strictly between
construction and release — and the constructor and destructor traces carry
the same name and the same identity marker. -/
theorem C7_resource_lifecycle_invariants : ∀ a : Nat,
    lifecycleOf "unique_resource" (uniqueOwnershipScenario a) =
      [Event.acquire "unique_resource" a, Event.use "unique_resource" a,
       Event.release "unique_resource" a] ∧
    lifecycleOf "shared_resource" (sharedOwnershipScenario a) =
      [Event.acquire "shared_resource" a, Event.use "shared_resource" a,
       Event.use "shared_resource" a, Event.release "shared_resource" a] ∧
    lifecycleOf "observer_resource" (observerScenario a) =
      [Event.acquire "observer_resource" a, Event.use "observer_resource" a,
       Event.release "observer_resource" a] ∧
    (∀ r : Resource, Resource.ctorTrace r = Event.acquire r.name r.addr ∧
      Resource.dtorTrace r = Event.release r.name r.addr) := by
  intro a
  exact ⟨rfl, rfl, rfl, fun r => ⟨rfl, rfl⟩⟩

/-- C8: in the observer scenario the identity marker printed by the owner
and the identity marker printed by the observer are the same single value,
and `observeResource` emits no release trace for any argument — release is
governed solely by the owner's scope. -/
theorem C8_observer_marker_and_no_release : ∀ a : Nat,
    ownerMarkers (observerScenario a) = [a] ∧
    observerMarkers (observerScenario a) = [a] ∧
    (∀ p : Option Resource, (observeResource p).countP isRelease = 0) := by
  intro a
  refine ⟨rfl, rfl, fun p => ?_⟩
  cases p <;> rfl

/-- C9: for any two runs of either program (runs differ only in the
run-dependent inputs: printed addresses for the lifetime demo, clock
readings for the benchmark), the outputs have identical structure — the same
events in the same order and number — once the identity markers
respectively timing numbers are erased. -/
theorem C9_structural_determinism :
    (∀ a1 a2 a3 b1 b2 b3 : Nat,
      (mainTrace a1 a2 a3).map Event.shape = (mainTrace b1 b2 b3).map Event.shape) ∧
    (∀ t1 t2 t3 t4 s1 s2 s3 s4 : Int,
      (benchMain t1 t2 t3 t4).map BenchLine.shape =
        (benchMain s1 s2 s3 s4).map BenchLine.shape) := by
  exact ⟨fun _ _ _ _ _ _ => rfl, fun _ _ _ _ _ _ _ _ => rfl⟩

/-- C10: `observeResource` is total on all pointers including null: its
first printed line is always the observer line with the observed address
(null printing as 0), it invokes `use` exactly once when the pointer is
non-null and never when it is null, and on a null pointer its whole output
is the single observer line. -/
theorem C10_observe_null_safe : ∀ p : Option Resource,
    (observeResource p).head? = some (Event.observerSees (ptrAddr p)) ∧
    (observeResource p).countP isUse = (if p.isSome then 1 else 0) ∧
    observeResource none = [Event.observerSees 0] := by
  intro p
  refine ⟨?_, ?_, rfl⟩ <;> cases p <;> rfl

end Cppuccino
